import Mathlib

/-!
# A verification model of gocron (`gocron.go`)

Shallow embedding of the scheduling-and-alert-fanout loop of the gocron
package: `Cron.Run`, the per-failure alert coordination (browser
notification, file record, asynchronous mail send raced against a 10-second
timer), and the append-only alert file (`StaticFile.WriteAlert`).

Modelling conventions:
* Durations are in abstract time units as natural numbers (`time.Duration`
  values are non-negative in every configuration of interest); the Go check
  `time.Now().After(start.Add(c.LifeTime))` becomes `elapsed > LifeTime`
  where `elapsed` is the wall time accumulated since `start`.
* External effects are oracles: the per-tick job result, the result of the
  browser `Send` (an `xdg-open` invocation), the outcome of the mail send
  and whether it completes before the 10-second timer, the per-call success
  of opening the alert file, and the wall time each iteration's job and
  alert handling consume.
* The alert file is a list of records; `WriteAlert` opens the path in
  append mode and writes one record, so a successful call appends one
  record and a failed open appends nothing and reports the error.
* `log.Fatal` (process termination) is the `died` flag; once set, nothing
  further executes.
* `mailchan` is an unbuffered channel shared by all iterations.  The
  sending goroutine signals it only after a failed send, blocking until a
  receiver arrives; `pending` records whether such a blocked sender is
  still waiting when a later failure event reaches its `select`.  A blocked
  sender is ready at `select` entry and wins the race immediately.
-/

namespace Gocron

/-- The mail configuration (`MailAlert` struct of the source).  The mutable
`msg` field is not carried: `Send` always overwrites it with the rendered
message before dialing, so it is a function of the configuration and the
job error (see `MailAlert.renderMsg`). -/
structure MailAlert where
  Subject : String
  To : List String
  From : String
  SMTP : String
deriving DecidableEq

/-- The message `MailAlert.Send` stores in `m.msg` before dialing:
`fmt.Sprintf("Subject: %s\nFrom: %s\n\n%v", m.Subject, m.From, alert)`.
`Msg()` returns this value for the failure and timeout records. -/
def MailAlert.renderMsg (m : MailAlert) (alert : String) : String :=
  "Subject: " ++ m.Subject ++ "\nFrom: " ++ m.From ++ "\n\n" ++ alert

/-- The browser-notification configuration (`Notification` struct). Only
its presence matters to the coordinator: `Send` on a `nil` receiver
returns `nil`. -/
structure Notification where
  Host : String
  Msg : String
  Timeout : Nat
deriving DecidableEq

/-- A record written to the alert file, tagged by the call site that wrote
it.  `render` gives the exact text of the wrapped error. -/
inductive Rec where
  | notiFail (e : String)
  | jobFail (e : String)
  | mailFail (msg e : String)
  | mailTimeout (msg : String)
deriving DecidableEq

/-- The text of each record, following the `fmt.Errorf` format strings of
the source (`%q` quotes its argument). -/
def Rec.render : Rec → String
  | .notiFail e => "Could not open notification: " ++ e
  | .jobFail e => e
  | .mailFail msg e =>
      "Could not send mail alert \"" ++ msg ++ "\": " ++ e
  | .mailTimeout msg => "timed out sending mail alert \"" ++ msg ++ "\""

/-- Is this record one of the two mail-related records? -/
def Rec.isMailRec : Rec → Bool
  | .mailFail _ _ => true
  | .mailTimeout _ => true
  | _ => false

/-- Observable events of a run, in wall-time order: job invocations, the
browser `Send` call, the launch of the mail goroutine, every `WriteAlert`
attempt with its outcome, the inter-tick sleep, and `log.Fatal`. -/
inductive Ev where
  | jobCall (i : Nat)
  | notifSend
  | mailSendStart
  | sinkWrite (r : Rec) (ok : Bool)
  | sleep (d : Nat)
  | fatal
deriving DecidableEq

/-- Program state threaded through the model: the alert file's contents,
the number of `WriteAlert` calls so far (used to index the open-failure
oracle), whether a mail goroutine is still blocked signalling `mailchan`,
the event trace, whether `log.Fatal` ran, wall time elapsed since `start`,
and the number of job invocations. -/
structure St where
  file : List Rec
  idx : Nat
  pending : Bool
  trace : List Ev
  died : Bool
  elapsed : Nat
  ticks : Nat
deriving DecidableEq

/-- The state at `Run`'s entry: empty alert file, no blocked sender, no
time elapsed, no ticks. -/
def St.init : St := ⟨[], 0, false, [], false, 0, 0⟩

/-- `StaticFile.WriteAlert`: open the path in append mode (create if
missing) and write one record through the logger.  A failed open is
returned as an error and writes nothing; a successful call appends exactly
one record.  `sinkOk` says whether the `n`-th open succeeds. -/
def writeAlert (sinkOk : Nat → Bool) (st : St) (r : Rec) : Bool × St :=
  (sinkOk st.idx,
   { st with file := st.file ++ (if sinkOk st.idx then [r] else []),
             idx := st.idx + 1,
             trace := st.trace ++ [Ev.sinkWrite r (sinkOk st.idx)] })

/-- `log.Fatal`: record the event and mark the process dead. -/
def fatalSt (st : St) : St :=
  { st with died := true, trace := st.trace ++ [Ev.fatal] }

/-- Behavior of the mail send launched for one failure event: the error
`Mail.Send` returns (`none` = success) and whether the send completes
before the 10-second timer fires. -/
structure MailBeh where
  sendErr : Option String
  withinBudget : Bool
deriving DecidableEq

/-- Behavior of the external collaborators for one failure event. -/
structure EventBeh where
  notifSendErr : Option String
  mail : MailBeh
deriving DecidableEq

/-- The mail branch of `Cron.Run` (source: `if c.Mail != nil { go ... ;
select ... }`).  The goroutine runs `c.Mail.Send(jobErr)`; on error it
writes the mail-failure record (fatal on write failure) and then signals
the unbuffered `mailchan`; on success it does nothing — in particular it
never signals.  The main flow `select`s between `mailchan` and a
10-second timer; in the timer case it writes the timeout record and
discards that write's error.  If a sender from an earlier event is still
blocked on `mailchan` it wins the `select` immediately. -/
def mailBranch (m : MailAlert) (mb : MailBeh) (sinkOk : Nat → Bool)
    (jobErr : String) (st0 : St) : St :=
  let msg := MailAlert.renderMsg m jobErr
  let st := { st0 with trace := st0.trace ++ [Ev.mailSendStart] }
  if st.pending then
    -- a stale sender rendezvous with the select at once: no record here;
    -- this event's own send still runs in the background
    match mb.sendErr with
    | none => { st with pending := false }
    | some e =>
      let w := writeAlert sinkOk st (Rec.mailFail msg e)
      if w.1 then { w.2 with pending := true } else fatalSt w.2
  else
    match mb.sendErr with
    | none =>
      -- send succeeded: the goroutine never signals, so the timer always
      -- fires and the timeout record is written (write error discarded)
      { (writeAlert sinkOk st (Rec.mailTimeout msg)).2 with pending := false }
    | some e =>
      if mb.withinBudget then
        -- goroutine writes the failure record, then signals; the select
        -- receives it: exactly one record
        let w := writeAlert sinkOk st (Rec.mailFail msg e)
        if w.1 then { w.2 with pending := false } else fatalSt w.2
      else
        -- timer fires first: timeout record, error discarded (source line
        -- 71); the send later fails, so the goroutine writes the failure
        -- record too and then blocks signalling mailchan
        let w := writeAlert sinkOk (writeAlert sinkOk st (Rec.mailTimeout msg)).2
            (Rec.mailFail msg e)
        if w.1 then { w.2 with pending := true } else fatalSt w.2

/-- The part of the failure branch after the browser step: write the
original job error (fatal on write failure), then run the mail branch if
`c.Mail != nil`. -/
def afterNotif (mail : Option MailAlert) (beh : EventBeh)
    (sinkOk : Nat → Bool) (jobErr : String) (st : St) : St :=
  let w := writeAlert sinkOk st (Rec.jobFail jobErr)
  if w.1 then
    match mail with
    | none => w.2
    | some m => mailBranch m beh.mail sinkOk jobErr w.2
  else fatalSt w.2

/-- The body of `if jobErr := c.Job(); jobErr != nil { ... }` in
`Cron.Run`: call `c.Notif.Send(jobErr)` first (a `nil` receiver returns
`nil`); on error write the wrapped browser-failure record (fatal on write
failure); then always write the job error; then the mail branch. -/
def handleFailure (mail : Option MailAlert) (notif : Option Notification)
    (beh : EventBeh) (sinkOk : Nat → Bool) (jobErr : String) (st0 : St) :
    St :=
  let st := { st0 with trace := st0.trace ++ [Ev.notifSend] }
  match (match notif with | none => none | some _ => beh.notifSendErr) with
  | none => afterNotif mail beh sinkOk jobErr st
  | some e =>
    let w := writeAlert sinkOk st (Rec.notiFail e)
    if w.1 then afterNotif mail beh sinkOk jobErr w.2 else fatalSt w.2

/-- The `Cron` configuration (source struct), with the job and the file
replaced by oracles and explicit state. -/
structure Cron where
  Interval : Nat
  LifeTime : Nat
  Mail : Option MailAlert
  Notif : Option Notification

/-- The environment of a run: result of tick `i`'s job (`none` =
success), behavior of the collaborators for tick `i`'s failure event,
wall time consumed by tick `i`'s job and alert handling, and the outcome
of the `n`-th alert-file open. -/
structure Env where
  jobErr : Nat → Option String
  beh : Nat → EventBeh
  iterTime : Nat → Nat
  sinkOk : Nat → Bool

/-- The job invocation that opens each iteration of the loop: count the
tick, account its wall time, record the call. -/
def tickState (env : Env) (st : St) : St :=
  { st with ticks := st.ticks + 1, elapsed := st.elapsed + env.iterTime st.ticks,
            trace := st.trace ++ [Ev.jobCall st.ticks] }

/-- The state after the job call and its failure branch: if tick
`st.ticks`'s job returned an error, the whole alert fan-out runs on it. -/
def midState (c : Cron) (env : Env) (st : St) : St :=
  match env.jobErr st.ticks with
  | some e => handleFailure c.Mail c.Notif (env.beh st.ticks) env.sinkOk e
      (tickState env st)
  | none => tickState env st

/-- One iteration of the `for` loop of `Cron.Run`.  Returns the new state
and whether the loop terminated: invoke the job; on failure run the alert
branch (if it `log.Fatal`s the process is gone); `if c.Interval == 0 {
break }`; `time.Sleep(c.Interval)`; `if time.Now().After(start.Add(
c.LifeTime)) { return }` — note the lifetime check is unconditional, it
is not guarded by the lifetime being set. -/
def runStep (c : Cron) (env : Env) (st : St) : St × Bool :=
  let st2 := midState c env st
  if st2.died then (st2, true)
  else if c.Interval = 0 then (st2, true)
  else
    let st3 := { st2 with trace := st2.trace ++ [Ev.sleep c.Interval],
                          elapsed := st2.elapsed + c.Interval }
    if st3.elapsed > c.LifeTime then (st3, true) else (st3, false)

/-- `Cron.Run` as fuel-bounded iteration of `runStep`.  `some st` means
the loop terminated (by `break`, the lifetime check, or `log.Fatal`)
within the fuel with final state `st`; `none` means it was still running
when the fuel ran out. -/
def runLoop (c : Cron) (env : Env) : Nat → St → Option St
  | 0, _ => none
  | fuel + 1, st =>
    match runStep c env st with
    | (st1, true) => some st1
    | (st1, false) => runLoop c env fuel st1

/-! ## Basic facts about the alert fan-out -/

/-- The alert fan-out never touches the tick counter. -/
lemma handleFailure_ticks (mail : Option MailAlert) (notif : Option Notification)
    (beh : EventBeh) (sinkOk : Nat → Bool) (jobErr : String) (st : St) :
    (handleFailure mail notif beh sinkOk jobErr st).ticks = st.ticks := by
  simp only [handleFailure, afterNotif, mailBranch, writeAlert, fatalSt]
  repeat' split
  all_goals rfl

/-- The alert fan-out's own wall time is carried by `Env.iterTime`; the
model's clock field is untouched inside it. -/
lemma handleFailure_elapsed (mail : Option MailAlert) (notif : Option Notification)
    (beh : EventBeh) (sinkOk : Nat → Bool) (jobErr : String) (st : St) :
    (handleFailure mail notif beh sinkOk jobErr st).elapsed = st.elapsed := by
  simp only [handleFailure, afterNotif, mailBranch, writeAlert, fatalSt]
  repeat' split
  all_goals rfl

/-- The alert fan-out emits no sleep events. -/
lemma handleFailure_count_sleep (mail : Option MailAlert) (notif : Option Notification)
    (beh : EventBeh) (sinkOk : Nat → Bool) (jobErr : String) (st : St) (d : Nat) :
    ((handleFailure mail notif beh sinkOk jobErr st).trace).count (Ev.sleep d)
      = st.trace.count (Ev.sleep d) := by
  simp only [handleFailure, afterNotif, mailBranch, writeAlert, fatalSt]
  repeat' split
  all_goals simp [List.count_append]

/-- When every alert-file open succeeds, no `log.Fatal` fires in the
fan-out. -/
lemma handleFailure_died_allOk (mail : Option MailAlert) (notif : Option Notification)
    (beh : EventBeh) (jobErr : String) (st : St) :
    (handleFailure mail notif beh (fun _ => true) jobErr st).died = st.died := by
  simp only [handleFailure, afterNotif, mailBranch, writeAlert, fatalSt]
  repeat' split
  all_goals simp_all

/-- The fan-out only ever appends to the alert file. -/
lemma handleFailure_file_mono (mail : Option MailAlert) (notif : Option Notification)
    (beh : EventBeh) (sinkOk : Nat → Bool) (jobErr : String) (st : St) :
    st.file <+: (handleFailure mail notif beh sinkOk jobErr st).file := by
  simp only [handleFailure, afterNotif, mailBranch, writeAlert, fatalSt]
  repeat' split
  all_goals simp [List.append_assoc, List.prefix_append, List.prefix_rfl]

/-- Everything after the browser step only ever appends to the trace. -/
lemma afterNotif_trace_mono (mail : Option MailAlert) (beh : EventBeh)
    (sinkOk : Nat → Bool) (jobErr : String) (st : St) :
    st.trace <+: (afterNotif mail beh sinkOk jobErr st).trace := by
  simp only [afterNotif, mailBranch, writeAlert, fatalSt]
  repeat' split
  all_goals simp [List.append_assoc, List.prefix_append, List.prefix_rfl]

/-! ## Basic facts about one loop iteration -/

lemma midState_ticks (c : Cron) (env : Env) (st : St) :
    (midState c env st).ticks = st.ticks + 1 := by
  unfold midState
  split
  · rw [handleFailure_ticks]; rfl
  · rfl

lemma midState_elapsed (c : Cron) (env : Env) (st : St) :
    (midState c env st).elapsed = st.elapsed + env.iterTime st.ticks := by
  unfold midState
  split
  · rw [handleFailure_elapsed]; rfl
  · rfl

lemma midState_count_sleep (c : Cron) (env : Env) (st : St) (d : Nat) :
    ((midState c env st).trace).count (Ev.sleep d) = st.trace.count (Ev.sleep d) := by
  unfold midState
  split
  · rw [handleFailure_count_sleep]; simp [tickState, List.count_append]
  · simp [tickState, List.count_append]

lemma midState_died_allOk (c : Cron) (env : Env) (st : St)
    (hok : env.sinkOk = fun _ => true) :
    (midState c env st).died = st.died := by
  unfold midState
  split
  · rw [hok, handleFailure_died_allOk]; rfl
  · rfl

/-- `midState` never reads the lifetime. -/
lemma midState_lifetime (c : Cron) (env : Env) (st : St) (L : Nat) :
    midState { c with LifeTime := L } env st = midState c env st := rfl

/-- Once a step reports termination, `runLoop` returns its state. -/
lemma runLoop_halt (c : Cron) (env : Env) (fuel : Nat) (st : St)
    (h : (runStep c env st).2 = true) :
    runLoop c env (fuel + 1) st = some (runStep c env st).1 := by
  simp only [runLoop]
  rcases hrs : runStep c env st with ⟨st1, b⟩
  simp_all

/-- With `interval == 0` the step always terminates the loop, with state
`midState` — the sleep and the lifetime check are never reached. -/
lemma runStep_zero (c : Cron) (env : Env) (st : St) (h : c.Interval = 0) :
    runStep c env st = (midState c env st, true) := by
  unfold runStep
  rw [h]
  split <;> simp_all

/-! ## Concrete fixtures -/

/-- A mail configuration for concrete runs. -/
def mailA : MailAlert := ⟨"job failed", ["op"], "cron", "smtp.example:25"⟩

/-- A browser-notification configuration for concrete runs. -/
def notifA : Notification := ⟨"localhost:8082", "reminder", 0⟩

/-- An environment where the job always succeeds, collaborators are quiet
and every alert-file open succeeds, and job time is negligible. -/
def envQuiet : Env := ⟨fun _ => none, fun _ => ⟨none, ⟨none, true⟩⟩, fun _ => 0,
  fun _ => true⟩

/-! ## The claims -/

/-- Claim C1: the spec says that when the mail send completes successfully
within the 10-second budget, no mail-failure and no mail-timeout record is
appended.  The code disagrees: the sending goroutine signals `mailchan`
only when `Send` returns an error, so after a successful send the `select`
can only take the `time.After` branch, and the mail-timeout record is
appended anyway.  This theorem evaluates the code at that input: mail
configured, send succeeds within budget, every file write succeeds — and
the alert file ends with a mail-timeout record. -/
theorem C1_success_still_times_out :
    (handleFailure (some mailA) none ⟨none, ⟨none, true⟩⟩ (fun _ => true) "boom"
        St.init).file
      = [Rec.jobFail "boom", Rec.mailTimeout (mailA.renderMsg "boom")]
    ∧ Rec.isMailRec (Rec.mailTimeout (mailA.renderMsg "boom")) = true :=
  ⟨rfl, rfl⟩

/-- Claim C2, counterexample: with mail configured, the send failing, and
the completion arriving only after the 10-second timer, the alert file
receives TWO mail-related records (the timeout record from the `select`,
then the mail-failure record written by the goroutine), so "at most one
mail-related record is appended" is false at this input. -/
theorem C2_counterexample :
    ¬ (List.countP Rec.isMailRec
        ((handleFailure (some mailA) none ⟨none, ⟨some "connection refused", false⟩⟩
            (fun _ => true) "boom" St.init).file) ≤ 1) := by
  decide

/-- Claim C2, amended: if the 10-second timer fires first and the send
later completes with a failure, the outcome is NOT discarded — the
goroutine additionally appends the mail-failure record after the
mail-timeout record, so exactly two mail-related records are written for
that failure event, timeout first. -/
theorem C2_amended (m : MailAlert) (notif : Option Notification) (beh : EventBeh)
    (st : St) (jobErr e : String)
    (hn : beh.notifSendErr = none) (hs : beh.mail.sendErr = some e)
    (hw : beh.mail.withinBudget = false) (hp : st.pending = false) :
    (handleFailure (some m) notif beh (fun _ => true) jobErr st).file
      = st.file ++ [Rec.jobFail jobErr, Rec.mailTimeout (m.renderMsg jobErr),
                    Rec.mailFail (m.renderMsg jobErr) e] := by
  cases notif <;>
    simp [handleFailure, afterNotif, mailBranch, writeAlert, hn, hs, hw, hp]

/-- Witness for `C2_amended` at a concrete input. -/
theorem C2_amended_witness :
    (handleFailure (some mailA) none ⟨none, ⟨some "connection refused", false⟩⟩
        (fun _ => true) "boom" St.init).file
      = [Rec.jobFail "boom", Rec.mailTimeout (mailA.renderMsg "boom"),
         Rec.mailFail (mailA.renderMsg "boom") "connection refused"] :=
  (C2_amended mailA none ⟨none, ⟨some "connection refused", false⟩⟩ St.init "boom"
    "connection refused" rfl rfl rfl rfl).trans rfl

/-- Claim C3: the spec says that when no lifetime is configured and the
interval is positive, the loop ticks forever.  The code disagrees: the
check `time.Now().After(start.Add(c.LifeTime))` is not guarded by the
lifetime being set, so with the zero value for `LifeTime` the elapsed
time exceeds it right after the first sleep and `Run` returns after a
single tick.  This theorem evaluates the code there: interval 1, lifetime
unset (0), the job always succeeding — for every fuel the loop halts
after exactly one tick and one sleep. -/
theorem C3_lifetime_unset_terminates (fuel : Nat) :
    runLoop ⟨1, 0, none, none⟩ envQuiet (fuel + 1) St.init
      = some ⟨[], 0, false, [Ev.jobCall 0, Ev.sleep 1], false, 1, 1⟩ := by
  rw [runLoop_halt _ _ fuel _ (by rfl)]
  rfl

/-- Claim C4, counterexample: the claim says every failure to append to
the alert file is fatal, on the mail-timeout path too.  But the source
discards `WriteAlert`'s result on exactly that path, so with the
timeout-record open failing (and the other opens succeeding) the process
does not terminate — it even goes on to write the later mail-failure
record. -/
theorem C4_counterexample :
    (handleFailure (some mailA) none ⟨none, ⟨some "x", false⟩⟩
        (fun i => !(i == 1)) "boom" St.init).died = false
    ∧ Ev.sinkWrite (Rec.mailTimeout (mailA.renderMsg "boom")) false
        ∈ (handleFailure (some mailA) none ⟨none, ⟨some "x", false⟩⟩
            (fun i => !(i == 1)) "boom" St.init).trace
    ∧ Rec.mailFail (mailA.renderMsg "boom") "x"
        ∈ (handleFailure (some mailA) none ⟨none, ⟨some "x", false⟩⟩
            (fun i => !(i == 1)) "boom" St.init).file := by
  refine ⟨rfl, ?_, ?_⟩ <;> decide

/-- Claim C4, amended: a failed append is fatal on the browser-failure
path, the job-failure path, and the asynchronous mail-failure path, and
`WriteAlert` propagates a failed open (appending nothing); but the
mail-timeout append's result is discarded, so its failure does not
terminate the process. -/
theorem C4_amended :
    (∀ (mail : Option MailAlert) (n : Notification) (beh : EventBeh) (st : St)
        (jobErr e : String), beh.notifSendErr = some e →
        (handleFailure mail (some n) beh (fun _ => false) jobErr st).died = true)
    ∧ (∀ (mail : Option MailAlert) (beh : EventBeh) (st : St) (jobErr : String),
        (handleFailure mail none beh (fun _ => false) jobErr st).died = true)
    ∧ (∀ (m : MailAlert) (jobErr e : String),
        (handleFailure (some m) none ⟨none, ⟨some e, true⟩⟩ (fun i => i == 0)
            jobErr St.init).died = true)
    ∧ (∀ (m : MailAlert) (jobErr e : String),
        (handleFailure (some m) none ⟨none, ⟨some e, false⟩⟩ (fun i => !(i == 1))
            jobErr St.init).died = false)
    ∧ (∀ (st : St) (r : Rec), (writeAlert (fun _ => false) st r).1 = false
        ∧ ((writeAlert (fun _ => false) st r).2).file = st.file) := by
  refine ⟨?_, ?_, ?_, ?_, ?_⟩
  · intro mail n beh st jobErr e hn
    simp [handleFailure, writeAlert, fatalSt, hn]
  · intro mail beh st jobErr
    simp [handleFailure, afterNotif, writeAlert, fatalSt]
  · intro m jobErr e; rfl
  · intro m jobErr e; rfl
  · intro st r; exact ⟨rfl, by simp [writeAlert]⟩

/-- Witness for `C4_amended` at a concrete input (browser-failure write
fails, process dies). -/
theorem C4_amended_witness :
    (handleFailure (some mailA) (some notifA) ⟨some "open failed", ⟨none, true⟩⟩
        (fun _ => false) "boom" St.init).died = true :=
  C4_amended.1 (some mailA) notifA ⟨some "open failed", ⟨none, true⟩⟩ St.init
    "boom" "open failed" rfl

/-- Claim C5: for every job failure — whatever the behavior of the
collaborators and of the alert file — the browser notifier is invoked
first, synchronously, before any other alert action (the first event the
failure branch appends is the browser `Send` call); and when its `Send`
fails, the wrapped browser-failure record is appended, and it always
precedes the job-failure record. -/
theorem C5_browser_first :
    (∀ (mail : Option MailAlert) (notif : Option Notification) (beh : EventBeh)
        (sinkOk : Nat → Bool) (jobErr : String) (st : St),
        (st.trace ++ [Ev.notifSend])
          <+: (handleFailure mail notif beh sinkOk jobErr st).trace)
    ∧ ∀ (mail : Option MailAlert) (n : Notification) (beh : EventBeh) (st : St)
        (jobErr e : String), beh.notifSendErr = some e →
        ∃ tr fr,
          (handleFailure mail (some n) beh (fun _ => true) jobErr st).trace
            = st.trace ++ [Ev.notifSend, Ev.sinkWrite (Rec.notiFail e) true,
                           Ev.sinkWrite (Rec.jobFail jobErr) true] ++ tr
          ∧ (handleFailure mail (some n) beh (fun _ => true) jobErr st).file
            = st.file ++ [Rec.notiFail e, Rec.jobFail jobErr] ++ fr := by
  constructor
  · intro mail notif beh sinkOk jobErr st
    simp only [handleFailure]
    split
    · exact afterNotif_trace_mono mail beh sinkOk jobErr
        { st with trace := st.trace ++ [Ev.notifSend] }
    · rename_i e heq
      split
      · exact List.IsPrefix.trans
          ⟨[Ev.sinkWrite (Rec.notiFail e) (sinkOk st.idx)],
            by simp [writeAlert, List.append_assoc]⟩
          (afterNotif_trace_mono mail beh sinkOk jobErr _)
      · exact ⟨[Ev.sinkWrite (Rec.notiFail e) (sinkOk st.idx), Ev.fatal],
          by simp [writeAlert, fatalSt, List.append_assoc]⟩
  intro mail n beh st jobErr e hn
  cases mail with
  | none =>
    refine ⟨[], [], ?_, ?_⟩ <;>
      simp [handleFailure, afterNotif, writeAlert, hn]
  | some m =>
    cases hp : st.pending with
    | true =>
      cases hs : beh.mail.sendErr with
      | none =>
        refine ⟨[Ev.mailSendStart], [], ?_, ?_⟩ <;>
          simp [handleFailure, afterNotif, mailBranch, writeAlert, hn, hp, hs]
      | some e2 =>
        refine ⟨[Ev.mailSendStart,
            Ev.sinkWrite (Rec.mailFail (m.renderMsg jobErr) e2) true],
          [Rec.mailFail (m.renderMsg jobErr) e2], ?_, ?_⟩ <;>
          simp [handleFailure, afterNotif, mailBranch, writeAlert, hn, hp, hs]
    | false =>
      cases hs : beh.mail.sendErr with
      | none =>
        refine ⟨[Ev.mailSendStart,
            Ev.sinkWrite (Rec.mailTimeout (m.renderMsg jobErr)) true],
          [Rec.mailTimeout (m.renderMsg jobErr)], ?_, ?_⟩ <;>
          simp [handleFailure, afterNotif, mailBranch, writeAlert, hn, hp, hs]
      | some e2 =>
        cases hw : beh.mail.withinBudget with
        | true =>
          refine ⟨[Ev.mailSendStart,
              Ev.sinkWrite (Rec.mailFail (m.renderMsg jobErr) e2) true],
            [Rec.mailFail (m.renderMsg jobErr) e2], ?_, ?_⟩ <;>
            simp [handleFailure, afterNotif, mailBranch, writeAlert, hn, hp, hs, hw]
        | false =>
          refine ⟨[Ev.mailSendStart,
              Ev.sinkWrite (Rec.mailTimeout (m.renderMsg jobErr)) true,
              Ev.sinkWrite (Rec.mailFail (m.renderMsg jobErr) e2) true],
            [Rec.mailTimeout (m.renderMsg jobErr),
             Rec.mailFail (m.renderMsg jobErr) e2], ?_, ?_⟩ <;>
            simp [handleFailure, afterNotif, mailBranch, writeAlert, hn, hp, hs, hw]

/-- Witness for `C5_browser_first` at concrete inputs: once with the
browser `Send` succeeding (the universal invoked-first clause), once with
it failing (the record-order clause, discharging its hypothesis). -/
theorem C5_browser_first_witness :
    ((St.init.trace ++ [Ev.notifSend])
      <+: (handleFailure none (some notifA) ⟨none, ⟨none, true⟩⟩ (fun _ => true)
            "boom" St.init).trace)
    ∧ ∃ tr fr,
      (handleFailure none (some notifA) ⟨some "exec failed", ⟨none, true⟩⟩
          (fun _ => true) "boom" St.init).trace
        = St.init.trace ++ [Ev.notifSend,
            Ev.sinkWrite (Rec.notiFail "exec failed") true,
            Ev.sinkWrite (Rec.jobFail "boom") true] ++ tr
      ∧ (handleFailure none (some notifA) ⟨some "exec failed", ⟨none, true⟩⟩
            (fun _ => true) "boom" St.init).file
        = St.init.file ++ [Rec.notiFail "exec failed", Rec.jobFail "boom"] ++ fr :=
  ⟨C5_browser_first.1 none (some notifA) ⟨none, ⟨none, true⟩⟩ (fun _ => true)
      "boom" St.init,
   C5_browser_first.2 none notifA ⟨some "exec failed", ⟨none, true⟩⟩ St.init
      "boom" "exec failed" rfl⟩

/-- Claim C6: with `interval == 0`, `Run` performs exactly one job
invocation and terminates immediately — whatever the job and the
notifiers did — without sleeping, and without consulting the lifetime
cutoff (the result is the same for every `LifeTime`). -/
theorem C6_interval_zero_run_once (c : Cron) (env : Env) (fuel : Nat)
    (h : c.Interval = 0) :
    ∃ st, runLoop c env (fuel + 1) St.init = some st ∧ st.ticks = 1
      ∧ (∀ d, Ev.sleep d ∉ st.trace)
      ∧ ∀ L, runLoop { c with LifeTime := L } env (fuel + 1) St.init = some st := by
  have h2 : runStep c env St.init = (midState c env St.init, true) :=
    runStep_zero c env St.init h
  refine ⟨midState c env St.init, ?_, ?_, ?_, ?_⟩
  · rw [runLoop_halt _ _ fuel _ (by rw [h2]), h2]
  · rw [midState_ticks]
    rfl
  · intro d
    exact List.count_eq_zero.mp (by rw [midState_count_sleep]; rfl)
  · intro L
    have h3 : runStep { c with LifeTime := L } env St.init
        = (midState c env St.init, true) := by
      rw [runStep_zero { c with LifeTime := L } env St.init h, midState_lifetime]
    rw [runLoop_halt _ _ fuel _ (by rw [h3]), h3]

/-- Witness for `C6_interval_zero_run_once` at a concrete input. -/
theorem C6_interval_zero_run_once_witness :
    ∃ st, runLoop ⟨0, 7, none, none⟩ envQuiet 3 St.init = some st ∧ st.ticks = 1
      ∧ (∀ d, Ev.sleep d ∉ st.trace)
      ∧ ∀ L, runLoop { (⟨0, 7, none, none⟩ : Cron) with LifeTime := L } envQuiet 3
          St.init = some st :=
  C6_interval_zero_run_once ⟨0, 7, none, none⟩ envQuiet 2 rfl

/-- Claim C7: with interval `I > 0` and lifetime `L < I`, the loop runs
exactly one tick: the job runs once, the sleep happens, and the lifetime
check — which sits strictly after the sleep — then terminates the loop
before a second tick. -/
theorem C7_short_lifetime_one_tick (c : Cron) (env : Env) (fuel : Nat)
    (hI : 0 < c.Interval) (hL : c.LifeTime < c.Interval)
    (hok : env.sinkOk = fun _ => true) :
    ∃ st, runLoop c env (fuel + 1) St.init = some st ∧ st.ticks = 1
      ∧ st.died = false ∧ Ev.sleep c.Interval ∈ st.trace := by
  have hd : (midState c env St.init).died = false :=
    midState_died_allOk c env St.init hok
  have hne : ¬ c.Interval = 0 := by omega
  have hgt : (midState c env St.init).elapsed + c.Interval > c.LifeTime := by
    rw [midState_elapsed]
    simp only [St.init]
    omega
  have hstep : runStep c env St.init
      = (⟨(midState c env St.init).file, (midState c env St.init).idx,
          (midState c env St.init).pending,
          (midState c env St.init).trace ++ [Ev.sleep c.Interval],
          (midState c env St.init).died,
          (midState c env St.init).elapsed + c.Interval,
          (midState c env St.init).ticks⟩, true) := by
    simp [runStep, hd, hne, hgt]
  refine ⟨⟨(midState c env St.init).file, (midState c env St.init).idx,
      (midState c env St.init).pending,
      (midState c env St.init).trace ++ [Ev.sleep c.Interval],
      (midState c env St.init).died,
      (midState c env St.init).elapsed + c.Interval,
      (midState c env St.init).ticks⟩, ?_, ?_, ?_, ?_⟩
  · rw [runLoop_halt _ _ fuel _ (by rw [hstep]), hstep]
  · show (midState c env St.init).ticks = 1
    rw [midState_ticks]
    rfl
  · exact hd
  · show Ev.sleep c.Interval
      ∈ (midState c env St.init).trace ++ [Ev.sleep c.Interval]
    simp

/-- Witness for `C7_short_lifetime_one_tick` at a concrete input. -/
theorem C7_short_lifetime_one_tick_witness :
    ∃ st, runLoop ⟨5, 3, none, none⟩ envQuiet 1 St.init = some st ∧ st.ticks = 1
      ∧ st.died = false ∧ Ev.sleep 5 ∈ st.trace :=
  C7_short_lifetime_one_tick ⟨5, 3, none, none⟩ envQuiet 0 (by decide) (by decide)
    rfl

/-- Claim C8: when `c.Mail` is `nil`, the whole mail branch is skipped on
every job failure: no mail send is started, and neither a mail-failure
nor a mail-timeout record is ever appended. -/
theorem C8_no_mail_when_unconfigured (notif : Option Notification)
    (beh : EventBeh) (sinkOk : Nat → Bool) (jobErr : String) (st : St) :
    List.countP Rec.isMailRec (handleFailure none notif beh sinkOk jobErr st).file
      = List.countP Rec.isMailRec st.file
    ∧ List.count Ev.mailSendStart
        (handleFailure none notif beh sinkOk jobErr st).trace
      = List.count Ev.mailSendStart st.trace := by
  constructor <;>
  · simp only [handleFailure, afterNotif, writeAlert, fatalSt]
    repeat' split
    all_goals simp [List.countP_append, List.count_append, Rec.isMailRec]

/-- Claim C9: the alert file is append-only — the whole fan-out only ever
extends it (every previously appended record remains, in order), and two
successful appends of the same record keep both occurrences in order. -/
theorem C9_append_only :
    (∀ (mail : Option MailAlert) (notif : Option Notification) (beh : EventBeh)
        (sinkOk : Nat → Bool) (jobErr : String) (st : St),
        st.file <+: (handleFailure mail notif beh sinkOk jobErr st).file)
    ∧ (∀ (st : St) (r : Rec),
        ((writeAlert (fun _ => true) ((writeAlert (fun _ => true) st r).2) r).2).file
          = st.file ++ [r, r]) := by
  constructor
  · exact handleFailure_file_mono
  · intro st r
    simp [writeAlert]

/-- Claim C10: on a tick whose job succeeds, no alert activity happens —
no browser send, no mail send, no alert-file write: the file, write
counter and mail-channel state are untouched, and the only events are the
job call and (when the interval is positive) the sleep. -/
theorem C10_success_tick_frame (c : Cron) (env : Env) (st : St)
    (hj : env.jobErr st.ticks = none) (hd : st.died = false) :
    (runStep c env st).1.file = st.file
    ∧ (runStep c env st).1.idx = st.idx
    ∧ (runStep c env st).1.pending = st.pending
    ∧ (runStep c env st).1.died = false
    ∧ (runStep c env st).1.ticks = st.ticks + 1
    ∧ (runStep c env st).1.trace
        = st.trace ++ [Ev.jobCall st.ticks]
            ++ (if c.Interval = 0 then [] else [Ev.sleep c.Interval]) := by
  have hm : midState c env st = tickState env st := by
    unfold midState
    rw [hj]
  unfold runStep
  rw [hm]
  by_cases h0 : c.Interval = 0 <;>
    simp [tickState, hd, h0] <;>
    split <;>
    simp

/-- Witness for `C10_success_tick_frame` at a concrete input. -/
theorem C10_success_tick_frame_witness :
    (runStep ⟨0, 0, none, none⟩ envQuiet St.init).1.file = St.init.file
    ∧ (runStep ⟨0, 0, none, none⟩ envQuiet St.init).1.idx = St.init.idx
    ∧ (runStep ⟨0, 0, none, none⟩ envQuiet St.init).1.pending = St.init.pending
    ∧ (runStep ⟨0, 0, none, none⟩ envQuiet St.init).1.died = false
    ∧ (runStep ⟨0, 0, none, none⟩ envQuiet St.init).1.ticks = St.init.ticks + 1
    ∧ (runStep ⟨0, 0, none, none⟩ envQuiet St.init).1.trace
        = St.init.trace ++ [Ev.jobCall St.init.ticks]
            ++ (if (0 : Nat) = 0 then [] else [Ev.sleep 0]) :=
  C10_success_tick_frame ⟨0, 0, none, none⟩ envQuiet St.init rfl rfl

end Gocron
